import Mathlib

/-! Shallow embedding of the Q and A dashboard backend (FastAPI plus SQLite).

Source files embedded: backend/database.py (store operations), backend/models.py
(pydantic request and response validation), backend/main.py (API endpoints and
the websocket ConnectionManager), backend/rag_service.py (suggestion service).

Modelling conventions:
- timestamps (SQLite CURRENT_TIMESTAMP, datetime.now().isoformat()) are natural
  numbers supplied by the caller as a clock argument;
- SQLite AUTOINCREMENT primary keys are max existing id plus 1 (rows are never
  deleted, so this coincides with AUTOINCREMENT);
- statuses are plain strings, exactly as in the database layer;
- SQL ORDER BY is an insertion sort by the corresponding total preorder (ties
  are left in an unspecified order by SQLite; every property proved below is
  insensitive to tie order);
- Python floats in rag_service.py are exact rationals;
- websocket delivery outcomes are a function from observer handle to
  Except String Unit: an error value is a raised send exception. -/

/-- Row of the questions table (database.py, init_db). -/
structure QuestionRec where
  question_id : Nat
  user_id : Option Nat
  username : String
  message : String
  status : String
  category : String
  timestamp : Nat
  answered_at : Option Nat
  deriving Repr, DecidableEq

/-- Row of the answers table (database.py, init_db). -/
structure AnswerRec where
  answer_id : Nat
  question_id : Nat
  user_id : Option Nat
  username : String
  message : String
  timestamp : Nat
  deriving Repr, DecidableEq

/-- The persistent store: the questions and answers tables. The users table is
not touched by any embedded operation. -/
structure Store where
  questions : List QuestionRec
  answers : List AnswerRec
  deriving Repr, DecidableEq

/-- A question row as serialised by the questions list API: models.py class
Question. Its answer_count field has pydantic default 0, used whenever the
database row carries no answer_count column. -/
structure QuestionOut extends QuestionRec where
  answer_count : Nat
  deriving Repr, DecidableEq

/-- Sort key of the CASE expression in get_all_questions: Escalated maps to 0,
every other status to 1. -/
def escRank (status : String) : Nat :=
  if status = "Escalated" then 0 else 1

/-- The ORDER BY of get_all_questions (database.py lines 141 to 146): CASE
status Escalated then 0 else 1, then timestamp descending. -/
def triageLE (a b : QuestionOut) : Prop :=
  escRank a.status < escRank b.status ∨
    (escRank a.status = escRank b.status ∧ b.timestamp ≤ a.timestamp)

instance : DecidableRel triageLE := fun a b => by
  unfold triageLE; infer_instance

instance : IsTotal QuestionOut triageLE :=
  ⟨by intro a b; unfold triageLE; omega⟩

instance : IsTrans QuestionOut triageLE :=
  ⟨by intro a b c hab hbc; unfold triageLE at *; omega⟩

/-- The ORDER BY timestamp DESC of get_questions_by_category. -/
def tsDescLE (a b : QuestionRec) : Prop := b.timestamp ≤ a.timestamp

instance : DecidableRel tsDescLE := fun a b => by
  unfold tsDescLE; infer_instance

instance : IsTotal QuestionRec tsDescLE :=
  ⟨by intro a b; unfold tsDescLE; omega⟩

instance : IsTrans QuestionRec tsDescLE :=
  ⟨by intro a b c hab hbc; unfold tsDescLE at *; omega⟩

/-- The ORDER BY timestamp ASC of get_answers_by_question. -/
def tsAscLE (a b : AnswerRec) : Prop := a.timestamp ≤ b.timestamp

instance : DecidableRel tsAscLE := fun a b => by
  unfold tsAscLE; infer_instance

instance : IsTotal AnswerRec tsAscLE :=
  ⟨by intro a b; unfold tsAscLE; omega⟩

instance : IsTrans AnswerRec tsAscLE :=
  ⟨by intro a b c hab hbc; unfold tsAscLE at *; omega⟩

/-- Largest question id present (0 when the table is empty). -/
def maxQuestionId (db : Store) : Nat :=
  db.questions.foldr (fun q m => max q.question_id m) 0

/-- The AUTOINCREMENT id assigned to the next inserted question. -/
def freshQuestionId (db : Store) : Nat := maxQuestionId db + 1

/-- Largest answer id present (0 when the table is empty). -/
def maxAnswerId (db : Store) : Nat :=
  db.answers.foldr (fun a m => max a.answer_id m) 0

/-- The AUTOINCREMENT id assigned to the next inserted answer. -/
def freshAnswerId (db : Store) : Nat := maxAnswerId db + 1

/-- COUNT of answers rows whose question_id matches, the value of
COUNT(a.answer_id) in the LEFT JOIN of get_all_questions (0 when the question
has no answers, since a NULL answer_id is not counted). -/
def answerCount (db : Store) (qid : Nat) : Nat :=
  (db.answers.filter fun a => a.question_id == qid).length

namespace QuestionDB

/-- database.py create_question: INSERT of (user_id, username, message,
category); the status column defaults to Pending, answered_at to NULL and
timestamp to the current time; the AUTOINCREMENT primary key is returned as
lastrowid. -/
def create_question (db : Store) (user_id : Option Nat) (username message : String)
    (category : String) (now : Nat) : Store × Nat :=
  let qid := freshQuestionId db
  ({ db with questions := db.questions ++
      [{ question_id := qid, user_id := user_id, username := username,
         message := message, status := "Pending", category := category,
         timestamp := now, answered_at := none }] }, qid)

/-- database.py get_all_questions: every question with its live answer count,
ordered Escalated first then timestamp descending. question_id is the primary
key, so the GROUP BY produces one output row per questions row. -/
def get_all_questions (db : Store) : List QuestionOut :=
  List.insertionSort triageLE
    (db.questions.map fun q =>
      { toQuestionRec := q, answer_count := answerCount db q.question_id })

/-- database.py get_question_by_id: the first row with the given id, if any. -/
def get_question_by_id (db : Store) (question_id : Nat) : Option QuestionRec :=
  db.questions.find? fun q => q.question_id == question_id

/-- database.py update_question_status: computes answered_at as the current
time when the new status is Answered and NULL otherwise, then overwrites the
status and answered_at columns of the matching row. -/
def update_question_status (db : Store) (question_id : Nat) (status : String)
    (now : Nat) : Store :=
  { db with questions := db.questions.map fun q =>
      if q.question_id == question_id then
        { q with status := status,
                 answered_at := if status = "Answered" then some now else none }
      else q }

/-- database.py get_questions_by_category: the rows of the category ordered by
timestamp descending only; no answer count and no status ordering appears in
this query. -/
def get_questions_by_category (db : Store) (category : String) : List QuestionRec :=
  List.insertionSort tsDescLE (db.questions.filter fun q => q.category == category)

end QuestionDB

namespace AnswerDB

/-- database.py create_answer: INSERT of (question_id, user_id, username,
message); timestamp defaults to the current time; the AUTOINCREMENT primary key
is returned as lastrowid. -/
def create_answer (db : Store) (question_id : Nat) (user_id : Option Nat)
    (username message : String) (now : Nat) : Store × Nat :=
  let aid := freshAnswerId db
  ({ db with answers := db.answers ++
      [{ answer_id := aid, question_id := question_id, user_id := user_id,
         username := username, message := message, timestamp := now }] }, aid)

/-- database.py get_answers_by_question: the answers of the question ordered by
timestamp ascending. -/
def get_answers_by_question (db : Store) (question_id : Nat) : List AnswerRec :=
  List.insertionSort tsAscLE (db.answers.filter fun a => a.question_id == question_id)

end AnswerDB

/-- main.py ConnectionManager: the registry of live websocket observers,
parametrised by the observer handle type. -/
structure ConnectionManager (Obs : Type) where
  active_connections : List Obs
  deriving Repr, DecidableEq

/-- Python exception surfaced by the manager: list.remove raises ValueError
when the element is absent. -/
inductive PyError where
  | valueError
  deriving Repr, DecidableEq

namespace ConnectionManager

/-- main.py ConnectionManager.connect: accept the socket, then append it to
active_connections. -/
def connect {Obs : Type} (m : ConnectionManager Obs) (w : Obs) : ConnectionManager Obs :=
  { active_connections := m.active_connections ++ [w] }

/-- main.py ConnectionManager.disconnect: list.remove, which removes the first
occurrence of the handle and raises ValueError when the handle is not in the
list. -/
def disconnect {Obs : Type} [DecidableEq Obs] (m : ConnectionManager Obs) (w : Obs) :
    Except PyError (ConnectionManager Obs) :=
  if w ∈ m.active_connections then
    Except.ok { active_connections := m.active_connections.erase w }
  else Except.error PyError.valueError

/-- The broadcast loop body: send_json is attempted for each connection in
registry order and any exception is caught and logged, so every connection is
attempted and each attempt is recorded with its outcome. -/
def broadcastAttempts {Obs : Type} (deliver : Obs → Except String Unit) :
    List Obs → List (Obs × Except String Unit)
  | [] => []
  | c :: rest => (c, deliver c) :: broadcastAttempts deliver rest

/-- main.py ConnectionManager.broadcast: iterates over active_connections
attempting delivery to each; the per iteration try and except swallows any
send exception, the registry is never modified, and no error escapes to the
caller (the function is total, returning the unchanged manager and the per
observer outcomes). -/
def broadcast {Obs : Type} (m : ConnectionManager Obs)
    (deliver : Obs → Except String Unit) :
    ConnectionManager Obs × List (Obs × Except String Unit) :=
  (m, broadcastAttempts deliver m.active_connections)

end ConnectionManager

/-- Errors surfaced by the API layer to the HTTP caller: pydantic request
validation failure (HTTP 422) and HTTPException 404. Authorization is not
modelled: every embedded request is by a suitably authenticated actor (auth is
orthogonal to every claim treated here). -/
inductive ApiError where
  | validation
  | notFound
  deriving Repr, DecidableEq

/-- Events handed to ConnectionManager.broadcast by the endpoints, carrying
exactly the payload the source passes (which is an Optional row for the re-read
record). -/
inductive Event where
  | new_question (q : Option QuestionRec)
  | question_updated (q : Option QuestionRec)
  | new_answer (a : Option AnswerRec)
  deriving Repr, DecidableEq

instance exceptDecEq {ε α : Type} [DecidableEq ε] [DecidableEq α] :
    DecidableEq (Except ε α) := fun x y =>
  match x, y with
  | Except.ok a, Except.ok b =>
    if h : a = b then isTrue (by rw [h])
    else isFalse (by intro hc; cases hc; exact h rfl)
  | Except.ok _, Except.error _ => isFalse (by intro hc; cases hc)
  | Except.error _, Except.ok _ => isFalse (by intro hc; cases hc)
  | Except.error e, Except.error f =>
    if h : e = f then isTrue (by rw [h])
    else isFalse (by intro hc; cases hc; exact h rfl)

/-- Outcome of one API call: the store afterwards, the events broadcast to
observers during the call, and the response or error. An error leaves the store
untouched and broadcasts nothing, mirroring that the source raises before any
write. -/
structure ApiResult (α : Type) where
  db : Store
  events : List Event
  result : Except ApiError α
  deriving Repr, DecidableEq

/-- models.py QuestionUpdate: the status field must match the anchored pattern
listing Pending, Escalated and Answered, i.e. be exactly one of the three. -/
def statusValid (s : String) : Bool :=
  s == "Pending" || s == "Escalated" || s == "Answered"

/-- models.py message bounds: QuestionCreate has min_length 1 and max_length
1000, AnswerCreate has min_length 1 and max_length 2000. -/
def messageValid (s : String) (maxLen : Nat) : Bool :=
  decide (1 ≤ s.length) && decide (s.length ≤ maxLen)

/-- main.py create_question endpoint (POST /api/questions). Pydantic
QuestionCreate validates the message before the handler runs; the handler
persists the question, re-reads it and broadcasts it. user_id and username are
the author fields already resolved from the optional authentication. -/
def create_question_endpoint (db : Store) (user_id : Option Nat)
    (username message category : String) (now : Nat) : ApiResult (Option QuestionRec) :=
  if messageValid message 1000 then
    let created := QuestionDB.create_question db user_id username message category now
    let q := QuestionDB.get_question_by_id created.1 created.2
    { db := created.1, events := [Event.new_question q], result := Except.ok q }
  else { db := db, events := [], result := Except.error ApiError.validation }

/-- main.py get_questions endpoint (GET /api/questions). The category branch is
taken when the query parameter is present, truthy (nonempty) and not the string
All. The rows of that branch carry no answer_count column, so the pydantic
response model Question fills in its default 0 (models.py line 51). -/
def get_questions_endpoint (db : Store) (category : Option String) : List QuestionOut :=
  match category with
  | some c =>
    if c ≠ "" ∧ c ≠ "All" then
      (QuestionDB.get_questions_by_category db c).map
        (fun q => { toQuestionRec := q, answer_count := 0 })
    else QuestionDB.get_all_questions db
  | none => QuestionDB.get_all_questions db

/-- main.py update_question_status endpoint (PATCH /api/questions/id), for an
admin caller. Pydantic QuestionUpdate rejects an unrecognized status before the
handler runs; the handler returns 404 for a missing question, otherwise updates
the status, re-reads the row and broadcasts it. -/
def update_question_endpoint (db : Store) (question_id : Nat) (newStatus : String)
    (now : Nat) : ApiResult (Option QuestionRec) :=
  if statusValid newStatus then
    match QuestionDB.get_question_by_id db question_id with
    | none => { db := db, events := [], result := Except.error ApiError.notFound }
    | some _ =>
      let db2 := QuestionDB.update_question_status db question_id newStatus now
      let uq := QuestionDB.get_question_by_id db2 question_id
      { db := db2, events := [Event.question_updated uq], result := Except.ok uq }
  else { db := db, events := [], result := Except.error ApiError.validation }

/-- main.py create_answer endpoint (POST /api/answers). Pydantic AnswerCreate
validates the message before the handler runs; the handler returns 404 when the
referenced question is absent, otherwise persists the answer, re-reads it from
the stored answers and broadcasts it. -/
def create_answer_endpoint (db : Store) (question_id : Nat) (user_id : Option Nat)
    (username message : String) (now : Nat) : ApiResult (Option AnswerRec) :=
  if messageValid message 2000 then
    match QuestionDB.get_question_by_id db question_id with
    | none => { db := db, events := [], result := Except.error ApiError.notFound }
    | some _ =>
      let created := AnswerDB.create_answer db question_id user_id username message now
      let answers := AnswerDB.get_answers_by_question created.1 question_id
      let createdAnswer := answers.find? fun a => a.answer_id == created.2
      { db := created.1, events := [Event.new_answer createdAnswer],
        result := Except.ok createdAnswer }
  else { db := db, events := [], result := Except.error ApiError.validation }

/-- main.py get_answers endpoint (GET /api/questions/id/answers): 404 when the
question is absent, otherwise the answers in ascending timestamp order. -/
def get_answers_endpoint (db : Store) (question_id : Nat) : ApiResult (List AnswerRec) :=
  match QuestionDB.get_question_by_id db question_id with
  | none => { db := db, events := [], result := Except.error ApiError.notFound }
  | some _ =>
    { db := db, events := [],
      result := Except.ok (AnswerDB.get_answers_by_question db question_id) }

/-- models.py RAGResponse, with confidence as an exact rational. -/
structure RAGResponse where
  question : String
  suggested_answer : String
  confidence : ℚ
  sources : List String
  deriving Repr, DecidableEq

/-- rag_service.py mock_responses dictionary, in insertion order (which is the
iteration order of a Python dict). -/
def mock_responses : List (String × String) :=
  [("how", "To accomplish this, you would typically follow these steps: 1) Research the requirements, 2) Plan your approach, 3) Implement the solution, 4) Test thoroughly. This is a general framework that can be adapted to your specific needs."),
   ("what", "This is a great question! Based on common knowledge, the answer involves understanding the core concepts and applying them to your specific context. I\x27d recommend researching more about the specific topic you\x27re asking about."),
   ("why", "There are several reasons for this: 1) Historical context, 2) Technical requirements, 3) Best practices in the field. Understanding these factors will help clarify the reasoning behind it."),
   ("when", "The timing for this depends on several factors including your specific requirements and constraints. Generally, it\x27s best to consider the context and plan accordingly."),
   ("where", "The location or placement depends on your specific use case. Common approaches include considering accessibility, performance, and maintainability factors.")]

/-- Python round(x, 2): rounding to the nearest hundredth. The tie direction of
Python (half to even on binary floats) differs from half up on exact rationals
only at exact ties, which no property below depends on. -/
def roundTo2 (x : ℚ) : ℚ := (round (x * 100) : ℤ) / 100

namespace RAGService

/-- rag_service.py _get_mock_answer. The value drawn by random.uniform(0.65,
0.85) is the explicit argument r; its range is a hypothesis where needed. -/
def get_mock_answer (r : ℚ) (question : String) : RAGResponse :=
  match mock_responses.find? (fun kv => question.toLower.startsWith kv.1) with
  | some kv =>
    { question := question, suggested_answer := kv.2, confidence := roundTo2 r,
      sources := ["Mock RAG System", "Demo Knowledge Base"] }
  | none =>
    { question := question,
      suggested_answer := "Thank you for your question! This is an interesting topic. I suggest researching authoritative sources or consulting with domain experts for the most accurate and up-to-date information. If you\x27d like a more specific answer, please provide additional context or details.",
      confidence := 60 / 100,
      sources := ["Mock RAG System", "General Knowledge Base"] }

/-- rag_service.py _get_real_answer: the LLM chain invocation is the backend
function; on success the answer is returned with fixed confidence 0.85, and any
raised exception is caught and falls back to the mock answer. -/
def get_real_answer (backend : String → Except String String) (r : ℚ)
    (question : String) : RAGResponse :=
  match backend question with
  | Except.ok answer =>
    { question := question, suggested_answer := answer, confidence := 85 / 100,
      sources := ["OpenAI GPT-3.5", "Langchain RAG"] }
  | Except.error _ => get_mock_answer r question

/-- rag_service.py get_suggested_answer: dispatches on whether an LLM client
was initialised (self.llm). -/
def get_suggested_answer (hasLLM : Bool) (backend : String → Except String String)
    (r : ℚ) (question : String) : RAGResponse :=
  if hasLLM then get_real_answer backend r question else get_mock_answer r question

end RAGService

/-- A question creating or status updating API call, for reasoning about
arbitrary operation sequences. -/
inductive Op where
  | submitQuestion (user_id : Option Nat) (username message category : String) (now : Nat)
  | updateStatus (question_id : Nat) (newStatus : String) (now : Nat)
  deriving Repr, DecidableEq

/-- The store after one API call (failed calls leave the store unchanged, as
recorded in the ApiResult). -/
def applyOp (db : Store) : Op → Store
  | Op.submitQuestion uid username message category now =>
    (create_question_endpoint db uid username message category now).db
  | Op.updateStatus qid newStatus now =>
    (update_question_endpoint db qid newStatus now).db

/-- The store after a sequence of API calls. -/
def applyOps (db : Store) (ops : List Op) : Store := ops.foldl applyOp db

/-- The answered timestamp invariant of the spec: answered_at is non null
exactly on questions whose current status is Answered. -/
def answeredInvariant (db : Store) : Prop :=
  ∀ q ∈ db.questions, (q.answered_at ≠ none ↔ q.status = "Answered")

/-- The empty store (a fresh database before any insert). -/
def emptyStore : Store := { questions := [], answers := [] }

/-- A store holding a Pending question created after an Escalated one, both in
category General, the Escalated one with one answer. -/
def cexStoreOrdering : Store :=
  { questions :=
      [{ question_id := 1, user_id := none, username := "alice", message := "first question",
         status := "Pending", category := "General", timestamp := 2, answered_at := none },
       { question_id := 2, user_id := none, username := "bob", message := "second question",
         status := "Escalated", category := "General", timestamp := 1, answered_at := none }],
    answers := [] }

/-- A store holding one question in category Tech that has exactly one answer. -/
def cexStoreCount : Store :=
  { questions :=
      [{ question_id := 1, user_id := none, username := "alice", message := "a tech question",
         status := "Pending", category := "Tech", timestamp := 1, answered_at := none }],
    answers :=
      [{ answer_id := 1, question_id := 1, user_id := none, username := "bob",
         message := "an answer", timestamp := 2 }] }

/-- A registry of three observers, identified by handles 1, 2 and 3. -/
def obsRegistry : ConnectionManager Nat := { active_connections := [1, 2, 3] }

/-- A delivery outcome function whose transport to observer 2 is closed: the
send to observer 2 raises, every other send succeeds. -/
def cexDeliver : Nat → Except String Unit :=
  fun o => if o = 2 then Except.error "closed transport" else Except.ok ()

/-- Every member of the iterated list receives a delivery attempt recording its
own outcome, whatever the outcomes of the other members are. -/
theorem mem_broadcastAttempts {Obs : Type} (deliver : Obs → Except String Unit) :
    ∀ (l : List Obs) (o : Obs), o ∈ l →
      (o, deliver o) ∈ ConnectionManager.broadcastAttempts deliver l := by
  intro l
  induction l with
  | nil => intro o h; cases h
  | cons c rest ih =>
    intro o h
    rcases List.mem_cons.mp h with h1 | h2
    · subst h1; exact List.mem_cons_self _ _
    · exact List.mem_cons_of_mem _ (ih o h2)

/-- C10: broadcast delivers to every observer of the registry, returns the
registry unchanged whatever the delivery outcomes are, and therefore a
persistently failing observer is still attempted by the next publish. -/
theorem broadcast_frame {Obs : Type} (m : ConnectionManager Obs)
    (deliver deliver2 : Obs → Except String Unit) :
    (ConnectionManager.broadcast m deliver).1 = m ∧
    (∀ o ∈ m.active_connections, (o, deliver o) ∈ (ConnectionManager.broadcast m deliver).2) ∧
    (∀ o ∈ m.active_connections,
      (o, deliver2 o) ∈
        (ConnectionManager.broadcast (ConnectionManager.broadcast m deliver).1 deliver2).2) := by
  refine ⟨rfl, ?_, ?_⟩
  · intro o ho
    exact mem_broadcastAttempts deliver _ o ho
  · intro o ho
    exact mem_broadcastAttempts deliver2 _ o ho

/-- Closed instance of the broadcast frame property on the three observer
registry with a failing transport for observer 2. -/
theorem broadcast_frame_witness :
    (ConnectionManager.broadcast obsRegistry cexDeliver).1 = obsRegistry ∧
    (2, cexDeliver 2) ∈ (ConnectionManager.broadcast obsRegistry cexDeliver).2 ∧
    (2, cexDeliver 2) ∈
      (ConnectionManager.broadcast (ConnectionManager.broadcast obsRegistry cexDeliver).1
        cexDeliver).2 :=
  ⟨(broadcast_frame obsRegistry cexDeliver cexDeliver).1,
   (broadcast_frame obsRegistry cexDeliver cexDeliver).2.1 2 (by decide),
   (broadcast_frame obsRegistry cexDeliver cexDeliver).2.2 2 (by decide)⟩

/-- C4 counterexample: the transport of observer 2 fails during the publish,
yet observer 2 is still registered afterwards; broadcast performs no
deregistration of failed observers. -/
theorem broadcast_no_deregister_cex :
    cexDeliver 2 = Except.error "closed transport" ∧
    (ConnectionManager.broadcast obsRegistry cexDeliver).1.active_connections = [1, 2, 3] ∧
    2 ∈ (ConnectionManager.broadcast obsRegistry cexDeliver).1.active_connections := by
  refine ⟨rfl, rfl, by decide⟩

/-- C4 amended: a delivery failure for one observer neither blocks nor fails
delivery to the remaining observers and raises no error to the publisher (every
registered observer receives its own delivery attempt and broadcast is a total
function), but the failed observer is not deregistered: it remains in the live
set. -/
theorem broadcast_failure_isolation {Obs : Type} (m : ConnectionManager Obs)
    (deliver : Obs → Except String Unit) (bad : Obs) (err : String)
    (hbad : deliver bad = Except.error err) :
    (∀ o ∈ m.active_connections, (o, deliver o) ∈ (ConnectionManager.broadcast m deliver).2) ∧
    (ConnectionManager.broadcast m deliver).2 =
      ConnectionManager.broadcastAttempts deliver m.active_connections ∧
    (bad ∈ m.active_connections →
      bad ∈ (ConnectionManager.broadcast m deliver).1.active_connections) := by
  refine ⟨?_, rfl, ?_⟩
  · intro o ho
    exact mem_broadcastAttempts deliver _ o ho
  · intro hb
    exact hb

/-- Closed instance of the failure isolation property: observer 2 has a closed
transport, observers 1 and 3 still receive the event, observer 2 stays
registered. -/
theorem broadcast_failure_isolation_witness :
    (∀ o ∈ obsRegistry.active_connections,
      (o, cexDeliver o) ∈ (ConnectionManager.broadcast obsRegistry cexDeliver).2) ∧
    (ConnectionManager.broadcast obsRegistry cexDeliver).2 =
      ConnectionManager.broadcastAttempts cexDeliver obsRegistry.active_connections ∧
    (2 ∈ obsRegistry.active_connections →
      2 ∈ (ConnectionManager.broadcast obsRegistry cexDeliver).1.active_connections) :=
  broadcast_failure_isolation obsRegistry cexDeliver 2 "closed transport" rfl

/-- C5 counterexample: deregistering a handle that is not in the live set
raises ValueError instead of being a safe no op, and after a successful
removal the second identical call raises, so disconnect is not idempotent. -/
theorem disconnect_absent_cex :
    ConnectionManager.disconnect ({ active_connections := [] } : ConnectionManager Nat) 1 =
      Except.error PyError.valueError ∧
    ConnectionManager.disconnect ({ active_connections := [1] } : ConnectionManager Nat) 1 =
      Except.ok { active_connections := [] } := by
  refine ⟨by decide, by decide⟩

/-- C5 amended: disconnect succeeds exactly on registered handles, erasing the
first occurrence; on an absent handle list.remove raises ValueError, so the
call is not safe once the observer is gone, and a second call after a successful
removal of a singly registered handle fails rather than being a no op. -/
theorem disconnect_spec {Obs : Type} [DecidableEq Obs] (m : ConnectionManager Obs) (w : Obs) :
    (w ∈ m.active_connections →
      ConnectionManager.disconnect m w =
        Except.ok { active_connections := m.active_connections.erase w }) ∧
    (w ∉ m.active_connections →
      ConnectionManager.disconnect m w = Except.error PyError.valueError) ∧
    (m.active_connections.count w = 1 →
      ConnectionManager.disconnect m w =
        Except.ok { active_connections := m.active_connections.erase w } ∧
      ConnectionManager.disconnect
          ({ active_connections := m.active_connections.erase w } : ConnectionManager Obs) w =
        Except.error PyError.valueError) := by
  refine ⟨?_, ?_, ?_⟩
  · intro hw
    simp [ConnectionManager.disconnect, hw]
  · intro hw
    simp [ConnectionManager.disconnect, hw]
  · intro hc
    have hw : w ∈ m.active_connections := List.count_pos_iff.mp (by omega)
    have hnot : w ∉ m.active_connections.erase w := by
      have herase := List.count_erase_self w m.active_connections
      rw [hc] at herase
      exact List.count_eq_zero.mp (by omega)
    constructor
    · simp [ConnectionManager.disconnect, hw]
    · simp [ConnectionManager.disconnect, hnot]

/-- Closed instance of the disconnect behaviour on the three observer
registry. -/
theorem disconnect_spec_witness :
    ConnectionManager.disconnect obsRegistry 2 =
      Except.ok { active_connections := obsRegistry.active_connections.erase 2 } ∧
    ConnectionManager.disconnect
        ({ active_connections := obsRegistry.active_connections.erase 2 } :
          ConnectionManager Nat) 2 =
      Except.error PyError.valueError :=
  (disconnect_spec obsRegistry 2).2.2 (by decide)

/-- C6 counterexample: for a submission whose message is empty and whose
question id references no question, pydantic validation rejects the request
before the existence check, so the call fails with ValidationError, not
NotFoundError. -/
theorem submitAnswer_error_precedence_cex :
    QuestionDB.get_question_by_id emptyStore 1 = none ∧
    (create_answer_endpoint emptyStore 1 none "Guest" "" 5).result =
      Except.error ApiError.validation ∧
    (create_answer_endpoint emptyStore 1 none "Guest" "" 5).result ≠
      Except.error ApiError.notFound := by
  refine ⟨rfl, rfl, by decide⟩

/-- C6 amended: with a message that passes validation, submitting an answer for
a nonexistent question fails with NotFoundError, persists no answer and emits
no event; with a message that fails validation the request is instead rejected
as ValidationError before the existence check runs, likewise persisting nothing
and emitting nothing. -/
theorem submitAnswer_notFound (db : Store) (qid : Nat) (uid : Option Nat)
    (username message : String) (now : Nat)
    (hq : QuestionDB.get_question_by_id db qid = none) :
    (messageValid message 2000 = true →
      (create_answer_endpoint db qid uid username message now).result =
          Except.error ApiError.notFound ∧
        (create_answer_endpoint db qid uid username message now).db = db ∧
        (create_answer_endpoint db qid uid username message now).events = []) ∧
    (messageValid message 2000 = false →
      (create_answer_endpoint db qid uid username message now).result =
          Except.error ApiError.validation ∧
        (create_answer_endpoint db qid uid username message now).db = db ∧
        (create_answer_endpoint db qid uid username message now).events = []) := by
  constructor
  · intro hm
    simp [create_answer_endpoint, hm, hq]
  · intro hm
    simp [create_answer_endpoint, hm]

/-- Closed instance: a well formed answer to the absent question 1 of the empty
store is rejected as NotFoundError, stores nothing and broadcasts nothing. -/
theorem submitAnswer_notFound_witness :
    (create_answer_endpoint emptyStore 1 none "Guest" "hello" 5).result =
      Except.error ApiError.notFound ∧
    (create_answer_endpoint emptyStore 1 none "Guest" "hello" 5).db = emptyStore ∧
    (create_answer_endpoint emptyStore 1 none "Guest" "hello" 5).events = [] :=
  (submitAnswer_notFound emptyStore 1 none "Guest" "hello" 5 rfl).1 rfl

/-- C7: an unrecognized status string is rejected by the pydantic pattern of
QuestionUpdate with a ValidationError; the store, and with it the status and
answered_at of every question, is untouched, and nothing is broadcast. -/
theorem updateStatus_invalid_validation (db : Store) (qid : Nat) (s : String) (now : Nat)
    (h : statusValid s = false) :
    (update_question_endpoint db qid s now).result = Except.error ApiError.validation ∧
    (update_question_endpoint db qid s now).db = db ∧
    (update_question_endpoint db qid s now).events = [] := by
  simp [update_question_endpoint, h]

/-- Closed instance: the unrecognized status Closed is rejected and the store
with the two General questions is unchanged. -/
theorem updateStatus_invalid_validation_witness :
    (update_question_endpoint cexStoreOrdering 1 "Closed" 9).result =
      Except.error ApiError.validation ∧
    (update_question_endpoint cexStoreOrdering 1 "Closed" 9).db = cexStoreOrdering ∧
    (update_question_endpoint cexStoreOrdering 1 "Closed" 9).events = [] :=
  updateStatus_invalid_validation cexStoreOrdering 1 "Closed" 9 rfl

/-- C1 counterexample: with the category filter General, the Escalated question
(id 2) is listed after the Pending one (id 1), because the category query
orders by timestamp only; the triage ordering fails on the output. -/
theorem listQuestions_category_ordering_cex :
    ((get_questions_endpoint cexStoreOrdering (some "General")).map
        fun row => (row.question_id, row.status)) = [(1, "Pending"), (2, "Escalated")] ∧
    ¬ List.Sorted triageLE (get_questions_endpoint cexStoreOrdering (some "General")) := by
  refine ⟨rfl, by decide⟩

/-- C1 amended: without a filter, or with the filter All or the empty string,
the listing is ordered Escalated first and then by creation timestamp
descending, and contains a row for every question; with any other category
filter, the listing contains exactly the questions of that category but is
ordered by creation timestamp descending only, with no Escalated first
partition. -/
theorem listQuestions_ordering (db : Store) (c : String) (h1 : c ≠ "") (h2 : c ≠ "All") :
    List.Sorted triageLE (get_questions_endpoint db none) ∧
    List.Sorted triageLE (get_questions_endpoint db (some "All")) ∧
    List.Sorted triageLE (get_questions_endpoint db (some "")) ∧
    List.Pairwise (fun a b : QuestionOut => b.timestamp ≤ a.timestamp)
      (get_questions_endpoint db (some c)) ∧
    (∀ row ∈ get_questions_endpoint db (some c), row.category = c) ∧
    (∀ q ∈ db.questions, q.category = c →
      ∃ row ∈ get_questions_endpoint db (some c), row.toQuestionRec = q) ∧
    (∀ q ∈ db.questions,
      ∃ row ∈ get_questions_endpoint db none, row.toQuestionRec = q) := by
  have hcat : get_questions_endpoint db (some c) =
      (QuestionDB.get_questions_by_category db c).map
        (fun q => { toQuestionRec := q, answer_count := 0 }) := by
    simp [get_questions_endpoint, h1, h2]
  have hall : get_questions_endpoint db none = QuestionDB.get_all_questions db := rfl
  refine ⟨?_, ?_, ?_, ?_, ?_, ?_, ?_⟩
  · exact List.sorted_insertionSort triageLE _
  · have hAll : get_questions_endpoint db (some "All") = QuestionDB.get_all_questions db := by
      simp [get_questions_endpoint]
    rw [hAll]
    exact List.sorted_insertionSort triageLE _
  · have hEmpty : get_questions_endpoint db (some "") = QuestionDB.get_all_questions db := by
      simp [get_questions_endpoint]
    rw [hEmpty]
    exact List.sorted_insertionSort triageLE _
  · rw [hcat]
    exact List.Pairwise.map _ (fun a b hab => hab) (List.sorted_insertionSort tsDescLE _)
  · intro row hrow
    rw [hcat] at hrow
    rcases List.mem_map.mp hrow with ⟨q, hq, rfl⟩
    have hq2 := (List.mem_insertionSort tsDescLE).mp hq
    have hq3 := (List.mem_filter.mp hq2).2
    simpa using hq3
  · intro q hq hqc
    refine ⟨{ toQuestionRec := q, answer_count := 0 }, ?_, rfl⟩
    rw [hcat]
    exact List.mem_map_of_mem _
      ((List.mem_insertionSort tsDescLE).mpr (List.mem_filter.mpr ⟨hq, by simp [hqc]⟩))
  · intro q hq
    refine ⟨{ toQuestionRec := q, answer_count := answerCount db q.question_id }, ?_, rfl⟩
    rw [hall]
    exact (List.mem_insertionSort triageLE).mpr (List.mem_map_of_mem _ hq)

/-- Closed instance of the amended listing contract on concrete stores. -/
theorem listQuestions_ordering_witness :
    List.Sorted triageLE (get_questions_endpoint cexStoreCount none) ∧
    List.Pairwise (fun a b : QuestionOut => b.timestamp ≤ a.timestamp)
      (get_questions_endpoint cexStoreCount (some "Tech")) :=
  ⟨(listQuestions_ordering cexStoreCount "Tech" (by decide) (by decide)).1,
   (listQuestions_ordering cexStoreCount "Tech" (by decide) (by decide)).2.2.2.1⟩

/-- Helper: a question of the store is found by get_question_by_id at its own
id. -/
theorem get_question_by_id_isSome {db : Store} {q : QuestionRec} (hq : q ∈ db.questions) :
    ∃ q2, QuestionDB.get_question_by_id db q.question_id = some q2 := by
  rw [← Option.isSome_iff_exists]
  unfold QuestionDB.get_question_by_id
  rw [List.find?_isSome]
  exact ⟨q, hq, by simp⟩

/-- C2 counterexample: the Tech question has one persisted answer retrievable
through the answers listing, yet the category filtered questions listing
reports answer_count 0 for it (the category query selects no count and the
response model fills in its default). -/
theorem listQuestions_answer_count_cex :
    ((get_questions_endpoint cexStoreCount (some "Tech")).map
        fun row => (row.question_id, row.answer_count)) = [(1, 0)] ∧
    (get_answers_endpoint cexStoreCount 1).result.map List.length = Except.ok 1 ∧
    ¬ (∀ row ∈ get_questions_endpoint cexStoreCount (some "Tech"),
        (get_answers_endpoint cexStoreCount row.question_id).result.map List.length =
          Except.ok row.answer_count) := by
  refine ⟨rfl, rfl, by decide⟩

/-- C2 amended: in the unfiltered listing (the default dashboard view) every
row carries exactly the number of answers the answers listing returns for it at
the same store state; in a category filtered listing the answer_count is always
the defaulted 0, regardless of the persisted answers. -/
theorem listQuestions_answer_count (db : Store) (c : String) (h1 : c ≠ "") (h2 : c ≠ "All") :
    (∀ row ∈ get_questions_endpoint db none,
      ∃ as, (get_answers_endpoint db row.question_id).result = Except.ok as ∧
        row.answer_count = as.length) ∧
    (∀ row ∈ get_questions_endpoint db (some c), row.answer_count = 0) := by
  constructor
  · intro row hrow
    have hrow2 : row ∈ (db.questions.map fun q =>
        ({ toQuestionRec := q, answer_count := answerCount db q.question_id } : QuestionOut)) :=
      (List.mem_insertionSort triageLE).mp hrow
    rcases List.mem_map.mp hrow2 with ⟨q, hq, rfl⟩
    obtain ⟨q2, hq2⟩ := get_question_by_id_isSome hq
    refine ⟨AnswerDB.get_answers_by_question db q.question_id, ?_, ?_⟩
    · simp [get_answers_endpoint, hq2]
    · have hlen := (List.perm_insertionSort tsAscLE
        (db.answers.filter fun a => a.question_id == q.question_id)).length_eq
      exact hlen.symm
  · intro row hrow
    have hcat : get_questions_endpoint db (some c) =
        (QuestionDB.get_questions_by_category db c).map
          (fun q => { toQuestionRec := q, answer_count := 0 }) := by
      simp [get_questions_endpoint, h1, h2]
    rw [hcat] at hrow
    rcases List.mem_map.mp hrow with ⟨q, hq, rfl⟩
    rfl

/-- Closed instance of the amended answer count contract on the store with one
answered Tech question. -/
theorem listQuestions_answer_count_witness :
    (∀ row ∈ get_questions_endpoint cexStoreCount none,
      ∃ as, (get_answers_endpoint cexStoreCount row.question_id).result = Except.ok as ∧
        row.answer_count = as.length) ∧
    (∀ row ∈ get_questions_endpoint cexStoreCount (some "General"), row.answer_count = 0) :=
  listQuestions_answer_count cexStoreCount "General" (by decide) (by decide)

/-- Helper: every id in a questions list is bounded by the foldr maximum. -/
theorem le_foldr_max (l : List QuestionRec) (q : QuestionRec) (hq : q ∈ l) :
    q.question_id ≤ l.foldr (fun r m => max r.question_id m) 0 := by
  induction l with
  | nil => cases hq
  | cons a as ih =>
    rcases List.mem_cons.mp hq with rfl | h2
    · exact le_max_left _ _
    · exact le_trans (ih h2) (le_max_right _ _)

/-- Helper: find? on an appended singleton when no earlier element matches. -/
theorem find?_append_singleton {α : Type} {p : α → Bool} {l : List α} {x : α}
    (hl : ∀ a ∈ l, p a = false) (hx : p x = true) : (l ++ [x]).find? p = some x := by
  induction l with
  | nil => simp [List.find?, hx]
  | cons a as ih =>
    have ha := hl a (List.mem_cons_self a as)
    rw [List.cons_append, List.find?_cons, ha]
    exact ih fun b hb => hl b (List.mem_cons_of_mem a hb)

/-- Helper: the row re-read right after create_question is the inserted record:
fresh id, the given author and text, status Pending, null answered_at. -/
theorem get_created_question (db : Store) (uid : Option Nat)
    (username message category : String) (now : Nat) :
    QuestionDB.get_question_by_id (QuestionDB.create_question db uid username message category now).1
      (QuestionDB.create_question db uid username message category now).2 =
    some { question_id := freshQuestionId db, user_id := uid, username := username,
           message := message, status := "Pending", category := category,
           timestamp := now, answered_at := none } := by
  simp only [QuestionDB.create_question, QuestionDB.get_question_by_id]
  apply find?_append_singleton
  · intro a ha
    have hle := le_foldr_max db.questions a ha
    rw [beq_eq_false_iff_ne]
    unfold freshQuestionId maxQuestionId
    omega
  · simp

/-- Helper: a row found at the updated id after update_question_status carries
the new status, and answered_at is the update time exactly when that status is
Answered. -/
theorem get_updated_question (db : Store) (qid : Nat) (s : String) (now : Nat) (q : QuestionRec)
    (h : QuestionDB.get_question_by_id (QuestionDB.update_question_status db qid s now) qid =
      some q) :
    q.status = s ∧ q.answered_at = (if s = "Answered" then some now else none) := by
  unfold QuestionDB.get_question_by_id QuestionDB.update_question_status at h
  have hpred := List.find?_some h
  have hmem := List.mem_of_find?_eq_some h
  rcases List.mem_map.mp hmem with ⟨p, hp, rfl⟩
  by_cases hq : (p.question_id == qid) = true
  · rw [if_pos hq]
    exact ⟨rfl, rfl⟩
  · rw [if_neg hq] at hpred
    exact absurd hpred hq

/-- Helper: a successful or failed question creation preserves the answered
timestamp invariant. -/
theorem answeredInvariant_create (db : Store) (uid : Option Nat)
    (username message category : String) (now : Nat) (h : answeredInvariant db) :
    answeredInvariant (create_question_endpoint db uid username message category now).db := by
  by_cases hm : messageValid message 1000 = true
  · intro q hq
    simp only [create_question_endpoint, hm, if_true, QuestionDB.create_question] at hq
    rcases List.mem_append.mp hq with hold | hnew
    · exact h q hold
    · rcases List.mem_singleton.mp hnew with rfl
      simp
  · intro q hq
    simp only [create_question_endpoint, hm] at hq
    exact h q hq

/-- Helper: the raw status update of the store preserves the answered timestamp
invariant, whatever status string is written. -/
theorem answeredInvariant_update_db (db : Store) (qid : Nat) (s : String) (now : Nat)
    (h : answeredInvariant db) :
    answeredInvariant (QuestionDB.update_question_status db qid s now) := by
  intro q hq
  simp only [QuestionDB.update_question_status] at hq
  rcases List.mem_map.mp hq with ⟨p, hp, rfl⟩
  by_cases hqid : (p.question_id == qid) = true
  · rw [if_pos hqid]
    by_cases hs : s = "Answered"
    · simp [hs]
    · simp [hs]
  · rw [if_neg hqid]
    exact h p hp

/-- Helper: the status update endpoint preserves the answered timestamp
invariant on every control path. -/
theorem answeredInvariant_updateEndpoint (db : Store) (qid : Nat) (s : String) (now : Nat)
    (h : answeredInvariant db) :
    answeredInvariant (update_question_endpoint db qid s now).db := by
  unfold update_question_endpoint
  by_cases hv : statusValid s = true
  · rw [if_pos hv]
    cases hfind : QuestionDB.get_question_by_id db qid with
    | none => exact h
    | some q0 => exact answeredInvariant_update_db db qid s now h
  · rw [if_neg hv]
    exact h

/-- Helper: invariant preservation along any sequence of operations. -/
theorem answeredInvariant_applyOps (ops : List Op) :
    ∀ (db : Store), answeredInvariant db → answeredInvariant (applyOps db ops) := by
  induction ops with
  | nil => intro db h; exact h
  | cons op rest ih =>
    intro db h
    cases op with
    | submitQuestion uid username message category now =>
      exact ih _ (answeredInvariant_create db uid username message category now h)
    | updateStatus qid s now =>
      exact ih _ (answeredInvariant_updateEndpoint db qid s now h)

/-- Helper: a successful status update returns the re-read updated row, whose
status is the requested one and whose answered_at is the update time exactly
when that status is Answered. -/
theorem update_endpoint_ok (db : Store) (qid : Nat) (s : String) (now : Nat) (q : QuestionRec)
    (hv : statusValid s = true)
    (hres : (update_question_endpoint db qid s now).result = Except.ok (some q)) :
    q.status = s ∧ q.answered_at = (if s = "Answered" then some now else none) := by
  unfold update_question_endpoint at hres
  rw [if_pos hv] at hres
  cases hfind : QuestionDB.get_question_by_id db qid with
  | none =>
    rw [hfind] at hres
    exact Except.noConfusion hres
  | some q0 =>
    rw [hfind] at hres
    have hres2 : Except.ok (QuestionDB.get_question_by_id
        (QuestionDB.update_question_status db qid s now) qid) =
        (Except.ok (some q) : Except ApiError (Option QuestionRec)) := hres
    simp only [Except.ok.injEq] at hres2
    exact get_updated_question db qid s now q hres2

/-- C3: every sequence of question creation and status update API calls
preserves the invariant that answered_at is non null exactly when the status is
Answered; moreover a successful creation returns a Pending question with null
answered_at, a successful update to Answered stores the current time as
answered_at, and a successful update to Pending or Escalated stores null. -/
theorem answered_at_invariant (db : Store) (ops : List Op) (h : answeredInvariant db) :
    answeredInvariant (applyOps db ops) ∧
    (∀ (uid : Option Nat) (username message category : String) (now : Nat) (q : QuestionRec),
      (create_question_endpoint db uid username message category now).result =
          Except.ok (some q) →
        q.status = "Pending" ∧ q.answered_at = none) ∧
    (∀ (qid now : Nat) (q : QuestionRec),
      (update_question_endpoint db qid "Answered" now).result = Except.ok (some q) →
        q.status = "Answered" ∧ q.answered_at = some now) ∧
    (∀ (qid now : Nat) (s : String) (q : QuestionRec), s = "Pending" ∨ s = "Escalated" →
      (update_question_endpoint db qid s now).result = Except.ok (some q) →
        q.status = s ∧ q.answered_at = none) := by
  refine ⟨answeredInvariant_applyOps ops db h, ?_, ?_, ?_⟩
  · intro uid username message category now q hres
    by_cases hm : messageValid message 1000 = true
    · have hr2 : (create_question_endpoint db uid username message category now).result =
          Except.ok (QuestionDB.get_question_by_id
            (QuestionDB.create_question db uid username message category now).1
            (QuestionDB.create_question db uid username message category now).2) := by
        simp [create_question_endpoint, hm]
      rw [get_created_question] at hr2
      have heq := hres.symm.trans hr2
      simp only [Except.ok.injEq, Option.some.injEq] at heq
      subst heq
      exact ⟨rfl, rfl⟩
    · rw [show (create_question_endpoint db uid username message category now).result =
          Except.error ApiError.validation by simp [create_question_endpoint, hm]] at hres
      exact Except.noConfusion hres
  · intro qid now q hres
    have hmech := update_endpoint_ok db qid "Answered" now q (by decide) hres
    simpa using hmech
  · intro qid now s q hs hres
    rcases hs with rfl | rfl
    · have hmech := update_endpoint_ok db qid "Pending" now q (by decide) hres
      simpa using hmech
    · have hmech := update_endpoint_ok db qid "Escalated" now q (by decide) hres
      simpa using hmech

/-- Closed instance: starting from the empty store, submitting a question, then
answering it, then re escalating it, leaves every question satisfying the
answered timestamp invariant. -/
theorem answered_at_invariant_witness :
    answeredInvariant (applyOps emptyStore
      [Op.submitQuestion none "alice" "hello" "General" 1,
       Op.updateStatus 1 "Answered" 2,
       Op.updateStatus 1 "Escalated" 3]) :=
  (answered_at_invariant emptyStore
    [Op.submitQuestion none "alice" "hello" "General" 1,
     Op.updateStatus 1 "Answered" 2,
     Op.updateStatus 1 "Escalated" 3] (by intro q hq; cases hq)).1

/-- C8: a valid submission (message length between 1 and 1000) succeeds, and
the subsequent unfiltered listing contains the new question with status
Pending, answer count 0 and null answered timestamp. The store is assumed well
formed (every persisted answer references some persisted question), which every
reachable store satisfies since answers are only inserted after the 404
existence check of the answers endpoint. -/
theorem submitQuestion_then_list (db : Store) (uid : Option Nat)
    (username message category : String) (now : Nat)
    (hm : messageValid message 1000 = true)
    (hwf : ∀ a ∈ db.answers, ∃ q ∈ db.questions, q.question_id = a.question_id) :
    ∃ q : QuestionRec,
      (create_question_endpoint db uid username message category now).result =
        Except.ok (some q) ∧
      q.status = "Pending" ∧ q.answered_at = none ∧
      ∃ row ∈ get_questions_endpoint
          (create_question_endpoint db uid username message category now).db none,
        row.toQuestionRec = q ∧ row.answer_count = 0 ∧
        row.status = "Pending" ∧ row.answered_at = none := by
  have hdb : (create_question_endpoint db uid username message category now).db =
      (QuestionDB.create_question db uid username message category now).1 := by
    simp [create_question_endpoint, hm]
  have hres : (create_question_endpoint db uid username message category now).result =
      Except.ok (QuestionDB.get_question_by_id
        (QuestionDB.create_question db uid username message category now).1
        (QuestionDB.create_question db uid username message category now).2) := by
    simp [create_question_endpoint, hm]
  rw [get_created_question] at hres
  have hcount : answerCount (QuestionDB.create_question db uid username message category now).1
      (freshQuestionId db) = 0 := by
    unfold answerCount
    rw [List.length_eq_zero, List.filter_eq_nil_iff]
    intro a ha
    have ha2 : a ∈ db.answers := ha
    obtain ⟨p, hpmem, hpid⟩ := hwf a ha2
    have hle := le_foldr_max db.questions p hpmem
    simp only [beq_iff_eq]
    unfold freshQuestionId maxQuestionId
    omega
  refine ⟨_, hres, rfl, rfl, ?_⟩
  rw [hdb]
  refine ⟨⟨_, _⟩, ?_, rfl, hcount, rfl, rfl⟩
  apply (List.mem_insertionSort triageLE).mpr
  apply List.mem_map_of_mem
  simp [QuestionDB.create_question]

/-- Closed instance: submitting hello to the store that already has one
answered Tech question yields a Pending question listed with answer count 0
and null answered timestamp. -/
theorem submitQuestion_then_list_witness :
    ∃ q : QuestionRec,
      (create_question_endpoint cexStoreCount none "Guest" "hello" "General" 7).result =
        Except.ok (some q) ∧
      q.status = "Pending" ∧ q.answered_at = none ∧
      ∃ row ∈ get_questions_endpoint
          (create_question_endpoint cexStoreCount none "Guest" "hello" "General" 7).db none,
        row.toQuestionRec = q ∧ row.answer_count = 0 ∧
        row.status = "Pending" ∧ row.answered_at = none :=
  submitQuestion_then_list cexStoreCount none "Guest" "hello" "General" 7 (by decide)
    (by decide)

/-- Helper: rounding a rational drawn from the uniform range 0.65 to 0.85 to
two decimal places stays within the unit interval. -/
theorem roundTo2_mem_unit {r : ℚ} (h1 : 65/100 ≤ r) (h2 : r ≤ 85/100) :
    0 ≤ roundTo2 r ∧ roundTo2 r ≤ 1 := by
  have hlb : (65 : ℤ) ≤ round (r * 100) := by
    rw [round_eq, Int.le_floor]
    push_cast
    linarith
  have hub : round (r * 100) < 86 := by
    rw [round_eq, Int.floor_lt]
    push_cast
    linarith
  have hlb2 : (65 : ℚ) ≤ ((round (r * 100) : ℤ) : ℚ) := by exact_mod_cast hlb
  have hub2 : ((round (r * 100) : ℤ) : ℚ) ≤ 85 := by
    have h86 : round (r * 100) ≤ 85 := by omega
    exact_mod_cast h86
  unfold roundTo2
  constructor
  · linarith
  · linarith

/-- C9: a failing suggestion backend degrades to the mock fallback rather than
propagating the error, and the returned response always carries a confidence
within the unit interval (0.85 for a real answer, a rounded uniform draw from
0.65 to 0.85 for a keyword mock, 0.60 for the default mock). -/
theorem rag_fallback_confidence (hasLLM : Bool) (backend : String → Except String String)
    (r : ℚ) (question : String) (err : String)
    (hr : 65/100 ≤ r ∧ r ≤ 85/100) :
    (backend question = Except.error err →
      RAGService.get_suggested_answer hasLLM backend r question =
        RAGService.get_mock_answer r question) ∧
    0 ≤ (RAGService.get_suggested_answer hasLLM backend r question).confidence ∧
    (RAGService.get_suggested_answer hasLLM backend r question).confidence ≤ 1 := by
  have hmock : 0 ≤ (RAGService.get_mock_answer r question).confidence ∧
      (RAGService.get_mock_answer r question).confidence ≤ 1 := by
    unfold RAGService.get_mock_answer
    cases hfind : mock_responses.find? (fun kv => question.toLower.startsWith kv.1) with
    | some kv => exact roundTo2_mem_unit hr.1 hr.2
    | none =>
      refine ⟨?_, ?_⟩
      · show (0 : ℚ) ≤ 60 / 100
        norm_num
      · show (60 : ℚ) / 100 ≤ 1
        norm_num
  refine ⟨?_, ?_⟩
  · intro hfail
    cases hasLLM with
    | false => rfl
    | true =>
      show RAGService.get_real_answer backend r question = RAGService.get_mock_answer r question
      unfold RAGService.get_real_answer
      rw [hfail]
  · cases hasLLM with
    | false => exact hmock
    | true =>
      show 0 ≤ (RAGService.get_real_answer backend r question).confidence ∧
        (RAGService.get_real_answer backend r question).confidence ≤ 1
      unfold RAGService.get_real_answer
      cases hok : backend question with
      | ok ans =>
        refine ⟨?_, ?_⟩
        · show (0 : ℚ) ≤ 85 / 100
          norm_num
        · show (85 : ℚ) / 100 ≤ 1
          norm_num
      | error e => exact hmock

/-- A backend whose chain invocation always raises. -/
def failBackend : String → Except String String := fun _ => Except.error "timeout"

/-- Closed instance: with the always failing backend and the draw 0.7, the
suggestion for a how question is the mock answer and its confidence lies in the
unit interval. -/
theorem rag_fallback_confidence_witness :
    (failBackend "how do I deploy" = Except.error "timeout" →
      RAGService.get_suggested_answer true failBackend (7/10) "how do I deploy" =
        RAGService.get_mock_answer (7/10) "how do I deploy") ∧
    0 ≤ (RAGService.get_suggested_answer true failBackend (7/10) "how do I deploy").confidence ∧
    (RAGService.get_suggested_answer true failBackend (7/10) "how do I deploy").confidence ≤ 1 :=
  rag_fallback_confidence true failBackend (7/10) "how do I deploy" "timeout"
    (by norm_num)
